import Mathlib

/-!
# gl-sdl.c : SDL / X11 platform binding of the OpenGL subsystem

A shallow embedding of `src/gl-sdl.c`.

* Pointers are natural numbers, `0` is `NULL`.  Every struct type has its own
  region of the heap (an association list from addresses to values); reading
  or writing through `NULL` or through an address that holds no object is
  undefined behaviour and makes the embedded function return `none`.
* A pointer to a swap chain is either `NULL`, the address of the `swap` member
  embedded in a `gl_platform`, or the address of a swap chain object of its
  own.
* The external libraries (SDL, Xlib, glad, and the `bzalloc` allocator) are an
  `Oracle`: the value a call returns is a function of the calls made so far
  and of the call's arguments.  Every call is appended, with its arguments and
  its result, to the `trace` of the state.
* `struct gs_init_data *info` is only read by this file and is passed by value.
-/

namespace GlSdl

/-! ## Data model -/

abbrev Ptr := Nat

/-- The null pointer. -/
def NULL : Ptr := 0

/-- Fields of `struct gs_init_data` that this file reads (`window.id` is the
native window handle of the caller). -/
structure gs_init_data where
  window_id : Nat
  cx : Nat
  cy : Nat
  num_backbuffers : Nat
  format : Nat
  zsformat : Nat
  adapter : Nat
deriving DecidableEq, Repr

/-- The source's `struct gl_windowinfo`. -/
structure gl_windowinfo where
  sdl_window : Ptr
deriving DecidableEq, Repr

/-- Fields of `struct gs_swap_chain` that this file uses. -/
structure gs_swap_chain where
  device : Ptr
  info : gs_init_data
  wi : Ptr
deriving DecidableEq, Repr

/-- The source's `struct gl_platform`. -/
structure gl_platform where
  context : Ptr
  swap : gs_swap_chain
deriving DecidableEq, Repr

/-- A value of type `struct gs_swap_chain *`. -/
inductive SwapPtr where
  | null
  | plat_swap (plat : Ptr)
  | chain (addr : Ptr)
deriving DecidableEq, Repr

/-- Fields of `struct gs_device` that this file uses. -/
structure gs_device where
  plat : Ptr
  cur_swap : SwapPtr
deriving DecidableEq, Repr

/-- Values of `SDL_SYSWM_TYPE`. -/
inductive SDL_SYSWM_TYPE where
  | SDL_SYSWM_UNKNOWN
  | SDL_SYSWM_WINDOWS
  | SDL_SYSWM_X11
  | SDL_SYSWM_DIRECTFB
  | SDL_SYSWM_COCOA
  | SDL_SYSWM_UIKIT
  | SDL_SYSWM_WAYLAND
  | SDL_SYSWM_MIR
deriving DecidableEq, Repr

/-- What `SDL_GetWindowWMInfo` writes into its `SDL_SysWMinfo` argument: the
subsystem and the `info.x11` member of the union. -/
structure SDL_SysWMinfo where
  subsystem : SDL_SYSWM_TYPE
  x11_display : Ptr
  x11_window : Nat
deriving DecidableEq, Repr

/-- The window flags passed to `SDL_CreateWindow`. -/
inductive SDL_WindowFlags where
  | SDL_WINDOW_OPENGL
  | SDL_WINDOW_BORDERLESS
  | SDL_WINDOW_HIDDEN
deriving DecidableEq, Repr

/-- The attributes passed to `SDL_GL_SetAttribute`. -/
inductive SDL_GLattr where
  | SDL_GL_CONTEXT_FLAGS
  | SDL_GL_CONTEXT_PROFILE_MASK
  | SDL_GL_CONTEXT_MAJOR_VERSION
  | SDL_GL_CONTEXT_MINOR_VERSION
deriving DecidableEq, Repr

/-- The attribute values passed to `SDL_GL_SetAttribute`. -/
inductive SDL_GLvalue where
  | SDL_GL_CONTEXT_DEBUG_FLAG
  | SDL_GL_CONTEXT_PROFILE_CORE
  | num (n : Nat)
deriving DecidableEq, Repr

/-- Log levels of `blog`. -/
inductive LogLevel where
  | LOG_ERROR
  | LOG_INFO
deriving DecidableEq, Repr

/-- The struct type a `bzalloc(sizeof(...))` call allocates. -/
inductive AllocType where
  | gl_windowinfo
  | gl_platform
deriving DecidableEq, Repr

/-- One call out of this file, with its arguments and (where the code can see
it) its result. -/
inductive Event where
  | bzalloc (ty : AllocType) (ret : Ptr)
  | bfree (p : Ptr)
  | blog (level : LogLevel) (format : String) (args : List Nat)
  | SDL_CreateWindow (title : String) (x y : Int) (w h : Nat)
      (flags : List SDL_WindowFlags) (ret : Ptr)
  | SDL_GetWindowWMInfo (window : Ptr) (ret : Bool) (wm_info : SDL_SysWMinfo)
  | XReparentWindow (display : Ptr) (w parent : Nat) (x y : Int) (ret : Int)
  | SDL_DestroyWindow (window : Ptr)
  | SDL_GL_SetAttribute (attr : SDL_GLattr) (value : SDL_GLvalue)
  | SDL_GL_CreateContext (window : Ptr) (ret : Ptr)
  | SDL_GL_MakeCurrent (window : Ptr) (context : Ptr) (ret : Int)
  | SDL_GL_DeleteContext (context : Ptr)
  | SDL_ShowWindow (window : Ptr)
  | gladLoadGL (ret : Int)
  | glGetString (ret : Ptr)
deriving DecidableEq, Repr

/-- The external libraries: what each call returns, given the calls made so
far and the arguments. -/
structure Oracle where
  bzalloc : List Event → AllocType → Ptr
  SDL_CreateWindow : List Event → String → Int → Int → Nat → Nat →
    List SDL_WindowFlags → Ptr
  SDL_GetWindowWMInfo : List Event → Ptr → Bool × SDL_SysWMinfo
  XReparentWindow : List Event → Ptr → Nat → Nat → Int → Int → Int
  SDL_GL_CreateContext : List Event → Ptr → Ptr
  SDL_GL_MakeCurrent : List Event → Ptr → Ptr → Int
  gladLoadGL : List Event → Int
  glGetString : List Event → Ptr

/-- The typed heap: one region per struct type. -/
structure Heap where
  windowinfos : List (Ptr × gl_windowinfo)
  platforms : List (Ptr × gl_platform)
  swap_chains : List (Ptr × gs_swap_chain)
  devices : List (Ptr × gs_device)
deriving DecidableEq, Repr

/-- Program state: the heap and the calls made so far. -/
structure State where
  heap : Heap
  trace : List Event
deriving DecidableEq, Repr

/-! ## Memory operations -/

/-- First object stored under address `p`. -/
def lookupObj {α : Type} : List (Ptr × α) → Ptr → Option α
  | [], _ => none
  | (q, v) :: rest, p => if q = p then some v else lookupObj rest p

/-- Read through a pointer: undefined for `NULL` and for a dangling address. -/
def load {α : Type} (m : List (Ptr × α)) (p : Ptr) : Option α :=
  if p = NULL then none else lookupObj m p

/-- Remove the object at address `p`. -/
def release {α : Type} (m : List (Ptr × α)) (p : Ptr) : List (Ptr × α) :=
  m.filter (fun e => e.1 ≠ p)

/-- Write the object at address `p`, replacing what was there. -/
def store {α : Type} (m : List (Ptr × α)) (p : Ptr) (v : α) : List (Ptr × α) :=
  (p, v) :: release m p

/-- Append one call to the trace. -/
def emit (e : Event) (s : State) : State :=
  { s with trace := s.trace ++ [e] }

/-- Zero-initialised `struct gs_init_data`. -/
def gs_init_data.zero : gs_init_data := ⟨0, 0, 0, 0, 0, 0, 0⟩

/-- Zero-initialised `struct gl_windowinfo`. -/
def gl_windowinfo.zero : gl_windowinfo := ⟨NULL⟩

/-- Zero-initialised `struct gl_platform`. -/
def gl_platform.zero : gl_platform := ⟨NULL, ⟨NULL, gs_init_data.zero, NULL⟩⟩

/-- Read `*wi`. -/
def load_wi (s : State) (wi : Ptr) : Option gl_windowinfo :=
  load s.heap.windowinfos wi

/-- Read `*plat`. -/
def load_plat (s : State) (plat : Ptr) : Option gl_platform :=
  load s.heap.platforms plat

/-- Read `*device`. -/
def load_device (s : State) (device : Ptr) : Option gs_device :=
  load s.heap.devices device

/-- Read `*swap`. -/
def load_swap (s : State) : SwapPtr → Option gs_swap_chain
  | .null => none
  | .plat_swap plat => (load_plat s plat).map (fun p => p.swap)
  | .chain addr => load s.heap.swap_chains addr

/-- Update `*wi` in place. -/
def modify_wi (wi : Ptr) (f : gl_windowinfo → gl_windowinfo) (s : State) :
    Option State :=
  (load_wi s wi).map fun v =>
    { s with heap := { s.heap with windowinfos := store s.heap.windowinfos wi (f v) } }

/-- Update `*plat` in place. -/
def modify_plat (plat : Ptr) (f : gl_platform → gl_platform) (s : State) :
    Option State :=
  (load_plat s plat).map fun v =>
    { s with heap := { s.heap with platforms := store s.heap.platforms plat (f v) } }

/-- Update `*device` in place. -/
def modify_device (device : Ptr) (f : gs_device → gs_device) (s : State) :
    Option State :=
  (load_device s device).map fun v =>
    { s with heap := { s.heap with devices := store s.heap.devices device (f v) } }

/-! ## Calls into the allocator -/

/-- The call `bzalloc(sizeof(struct gl_windowinfo))`: a non-null result is the
address of a fresh zeroed object. -/
def bzalloc_windowinfo (o : Oracle) (s : State) : Ptr × State :=
  let p := o.bzalloc s.trace AllocType.gl_windowinfo
  let s := emit (Event.bzalloc AllocType.gl_windowinfo p) s
  if p = NULL then (p, s)
  else (p, { s with heap :=
    { s.heap with windowinfos := store s.heap.windowinfos p gl_windowinfo.zero } })

/-- The call `bzalloc(sizeof(struct gl_platform))`. -/
def bzalloc_platform (o : Oracle) (s : State) : Ptr × State :=
  let p := o.bzalloc s.trace AllocType.gl_platform
  let s := emit (Event.bzalloc AllocType.gl_platform p) s
  if p = NULL then (p, s)
  else (p, { s with heap :=
    { s.heap with platforms := store s.heap.platforms p gl_platform.zero } })

/-- The call `bfree(wi)` on a `struct gl_windowinfo *`. -/
def bfree_windowinfo (wi : Ptr) (s : State) : State :=
  let s := emit (Event.bfree wi) s
  { s with heap := { s.heap with windowinfos := release s.heap.windowinfos wi } }

/-- The call `bfree(plat)` on a `struct gl_platform *`. -/
def bfree_platform (plat : Ptr) (s : State) : State :=
  let s := emit (Event.bfree plat) s
  { s with heap := { s.heap with platforms := release s.heap.platforms plat } }

/-! ## The functions of gl-sdl.c -/

/-- Source: `gl_platform_getswap`, returns `&platform->swap`. -/
def gl_platform_getswap (platform : Ptr) : SwapPtr :=
  SwapPtr.plat_swap platform

/-- Label `fail0` of `gl_windowinfo_create`: `bfree(wi); return NULL;`. -/
def gl_windowinfo_create_fail0 (wi : Ptr) (s : State) : Option (Ptr × State) :=
  some (NULL, bfree_windowinfo wi s)

/-- Source: `gl_windowinfo_create`. -/
def gl_windowinfo_create (o : Oracle) (info : gs_init_data) (s : State) :
    Option (Ptr × State) := do
  -- struct gl_windowinfo *wi = bzalloc(sizeof(struct gl_windowinfo));
  let (wi, s) := bzalloc_windowinfo o s
  -- wi->sdl_window = SDL_CreateWindow("OBS Studio", 0, 0, info->cx, info->cy, ...);
  let flags := [SDL_WindowFlags.SDL_WINDOW_OPENGL, SDL_WindowFlags.SDL_WINDOW_BORDERLESS,
    SDL_WindowFlags.SDL_WINDOW_HIDDEN]
  let created := o.SDL_CreateWindow s.trace "OBS Studio" 0 0 info.cx info.cy flags
  let s := emit (Event.SDL_CreateWindow "OBS Studio" 0 0 info.cx info.cy flags created) s
  let s ← modify_wi wi (fun v => { v with sdl_window := created }) s
  -- if (!wi->sdl_window) { blog(LOG_ERROR, "Failed to create SDL Window!"); }
  let w ← load_wi s wi
  let s := if w.sdl_window = NULL
    then emit (Event.blog LogLevel.LOG_ERROR "Failed to create SDL Window!" []) s
    else s
  -- if (!SDL_GetWindowWMInfo(wi->sdl_window, &wm_info)) { blog(...); goto fail0; }
  let w ← load_wi s wi
  let got := o.SDL_GetWindowWMInfo s.trace w.sdl_window
  let ok := got.1
  let wm_info := got.2
  let s := emit (Event.SDL_GetWindowWMInfo w.sdl_window ok wm_info) s
  if !ok then
    let s := emit (Event.blog LogLevel.LOG_ERROR
      "Failed to fetch windowing system information!" []) s
    gl_windowinfo_create_fail0 wi s
  else
    -- switch (wm_info.subsystem) { case SDL_SYSWM_X11: ... }
    match wm_info.subsystem with
    | SDL_SYSWM_TYPE.SDL_SYSWM_X11 =>
      -- result = XReparentWindow(display, window, info->window.id, 0, 0);
      let result := o.XReparentWindow s.trace wm_info.x11_display wm_info.x11_window
        info.window_id 0 0
      let s := emit (Event.XReparentWindow wm_info.x11_display wm_info.x11_window
        info.window_id 0 0 result) s
      -- if (!result) { blog(...); goto fail0; }
      if result = 0 then
        let s := emit (Event.blog LogLevel.LOG_ERROR "Failed to reparent SDL window!" []) s
        gl_windowinfo_create_fail0 wi s
      else
        -- return wi;
        some (wi, s)
    | _ =>
      -- return wi;
      some (wi, s)

/-- Source: `gl_windowinfo_destroy`. -/
def gl_windowinfo_destroy (wi : Ptr) (s : State) : Option State := do
  -- SDL_DestroyWindow(wi->sdl_window);
  let w ← load_wi s wi
  let s := emit (Event.SDL_DestroyWindow w.sdl_window) s
  -- bfree(wi);
  some (bfree_windowinfo wi s)

/-- Source: `print_info_stuff`. -/
def print_info_stuff (info : gs_init_data) (s : State) : State :=
  emit (Event.blog LogLevel.LOG_INFO
    "X and Y: %i %i\nBackbuffers: %i\nColor Format: %i\nZStencil Format: %i\nAdapter: %i\n"
    [info.cx, info.cy, info.num_backbuffers, info.format, info.zsformat, info.adapter]) s

/-- Label `fail0` of `gl_platform_create`: `bfree(plat); return NULL;`. -/
def gl_platform_create_fail0 (plat : Ptr) (s : State) : Option (Ptr × State) :=
  some (NULL, bfree_platform plat s)

/-- Label `fail1` of `gl_platform_create`:
`gl_windowinfo_destroy(plat->swap.wi);`, then falls through to `fail0`. -/
def gl_platform_create_fail1 (plat : Ptr) (s : State) : Option (Ptr × State) := do
  let p ← load_plat s plat
  let s ← gl_windowinfo_destroy p.swap.wi s
  gl_platform_create_fail0 plat s

/-- Label `fail2` of `gl_platform_create`:
`SDL_GL_DeleteContext(plat->context);`, then falls through to `fail1`. -/
def gl_platform_create_fail2 (plat : Ptr) (s : State) : Option (Ptr × State) := do
  let p ← load_plat s plat
  let s := emit (Event.SDL_GL_DeleteContext p.context) s
  gl_platform_create_fail1 plat s

/-- Label `fail3` of `gl_platform_create`:
`SDL_GL_MakeCurrent(plat->context, NULL);`, then falls through to `fail2`. -/
def gl_platform_create_fail3 (o : Oracle) (plat : Ptr) (s : State) :
    Option (Ptr × State) := do
  let p ← load_plat s plat
  let r := o.SDL_GL_MakeCurrent s.trace p.context NULL
  let s := emit (Event.SDL_GL_MakeCurrent p.context NULL r) s
  gl_platform_create_fail2 plat s

/-- Source: `gl_platform_create`. -/
def gl_platform_create (o : Oracle) (device : Ptr) (info : gs_init_data) (s : State) :
    Option (Ptr × State) := do
  -- struct gl_platform *plat = bzalloc(sizeof(struct gl_platform));
  let (plat, s) := bzalloc_platform o s
  -- if (!plat) return NULL;
  if plat = NULL then some (NULL, s) else
  -- print_info_stuff(info);
  let s := print_info_stuff info s
  -- device->plat = plat;
  let s ← modify_device device (fun d => { d with plat := plat }) s
  -- plat->swap.wi = gl_windowinfo_create(info);
  let (wi, s) ← gl_windowinfo_create o info s
  let s ← modify_plat plat (fun p => { p with swap := { p.swap with wi := wi } }) s
  -- if (!plat->swap.wi) goto fail0;
  let p ← load_plat s plat
  if p.swap.wi = NULL then gl_platform_create_fail0 plat s else
  -- SDL_GL_SetAttribute(...);  (four calls)
  let s := emit (Event.SDL_GL_SetAttribute SDL_GLattr.SDL_GL_CONTEXT_FLAGS
    SDL_GLvalue.SDL_GL_CONTEXT_DEBUG_FLAG) s
  let s := emit (Event.SDL_GL_SetAttribute SDL_GLattr.SDL_GL_CONTEXT_PROFILE_MASK
    SDL_GLvalue.SDL_GL_CONTEXT_PROFILE_CORE) s
  let s := emit (Event.SDL_GL_SetAttribute SDL_GLattr.SDL_GL_CONTEXT_MAJOR_VERSION
    (SDL_GLvalue.num 3)) s
  let s := emit (Event.SDL_GL_SetAttribute SDL_GLattr.SDL_GL_CONTEXT_MINOR_VERSION
    (SDL_GLvalue.num 2)) s
  -- plat->swap.device = device;
  let s ← modify_plat plat (fun p => { p with swap := { p.swap with device := device } }) s
  -- plat->swap.info = *info;
  let s ← modify_plat plat (fun p => { p with swap := { p.swap with info := info } }) s
  -- plat->context = SDL_GL_CreateContext(plat->swap.wi->sdl_window);
  let p ← load_plat s plat
  let w ← load_wi s p.swap.wi
  let ctx := o.SDL_GL_CreateContext s.trace w.sdl_window
  let s := emit (Event.SDL_GL_CreateContext w.sdl_window ctx) s
  let s ← modify_plat plat (fun p => { p with context := ctx }) s
  -- if (!plat->context) { blog(...); goto fail1; }
  let p ← load_plat s plat
  if p.context = NULL then
    let s := emit (Event.blog LogLevel.LOG_ERROR "Failed to create context!" []) s
    gl_platform_create_fail1 plat s
  else
  -- if (SDL_GL_MakeCurrent(plat->swap.wi->sdl_window, plat->context) != 0) { ...; goto fail2; }
  let w ← load_wi s p.swap.wi
  let r := o.SDL_GL_MakeCurrent s.trace w.sdl_window p.context
  let s := emit (Event.SDL_GL_MakeCurrent w.sdl_window p.context r) s
  if r ≠ 0 then
    let s := emit (Event.blog LogLevel.LOG_ERROR "Failed to make context current." []) s
    gl_platform_create_fail2 plat s
  else
  -- SDL_ShowWindow(plat->swap.wi->sdl_window);
  let p ← load_plat s plat
  let w ← load_wi s p.swap.wi
  let s := emit (Event.SDL_ShowWindow w.sdl_window) s
  -- if (!gladLoadGL()) { blog(...); goto fail3; }
  let g := o.gladLoadGL s.trace
  let s := emit (Event.gladLoadGL g) s
  if g = 0 then
    let s := emit (Event.blog LogLevel.LOG_ERROR "Failed to load OpenGL entry functions." []) s
    gl_platform_create_fail3 o plat s
  else
  -- blog(LOG_INFO, "OpenGL version: %s\n", glGetString(GL_VERSION));
  let v := o.glGetString s.trace
  let s := emit (Event.glGetString v) s
  let s := emit (Event.blog LogLevel.LOG_INFO "OpenGL version: %s\n" [v]) s
  -- device->cur_swap = &plat->swap;
  let s ← modify_device device (fun d => { d with cur_swap := SwapPtr.plat_swap plat }) s
  -- blog(LOG_INFO, "Created new platform data");
  let s := emit (Event.blog LogLevel.LOG_INFO "Created new platform data" []) s
  -- return plat;
  some (plat, s)

/-- Source: `gl_platform_destroy`. -/
def gl_platform_destroy (o : Oracle) (platform : Ptr) (s : State) : Option State := do
  -- if (!platform) return;
  if platform = NULL then some s else
  -- SDL_Window* window = platform->swap.wi->sdl_window;
  let p ← load_plat s platform
  let w ← load_wi s p.swap.wi
  let window := w.sdl_window
  -- SDL_GLContext context = platform->context;
  let context := p.context
  -- SDL_GL_MakeCurrent(window, NULL);
  let r := o.SDL_GL_MakeCurrent s.trace window NULL
  let s := emit (Event.SDL_GL_MakeCurrent window NULL r) s
  -- SDL_DestroyWindow(window);
  let s := emit (Event.SDL_DestroyWindow window) s
  -- SDL_GL_DeleteContext(context);
  let s := emit (Event.SDL_GL_DeleteContext context) s
  -- gl_windowinfo_destroy(platform->swap.wi);
  let p ← load_plat s platform
  let s ← gl_windowinfo_destroy p.swap.wi s
  -- bfree(platform);
  some (bfree_platform platform s)

/-- Source: `device_entercontext`. -/
def device_entercontext (o : Oracle) (device : Ptr) (s : State) : Option State := do
  -- SDL_GLContext context = device->plat->context;
  let d ← load_device s device
  let p ← load_plat s d.plat
  let context := p.context
  -- SDL_Window *window = device->cur_swap->wi->sdl_window;
  let sw ← load_swap s d.cur_swap
  let w ← load_wi s sw.wi
  let window := w.sdl_window
  -- if (SDL_GL_MakeCurrent(window, context) != 0) blog(...);
  let r := o.SDL_GL_MakeCurrent s.trace window context
  let s := emit (Event.SDL_GL_MakeCurrent window context r) s
  if r ≠ 0 then
    some (emit (Event.blog LogLevel.LOG_ERROR "Failed to make context current." []) s)
  else some s

/-- Source: `device_leavecontext`. -/
def device_leavecontext (o : Oracle) (device : Ptr) (s : State) : Option State := do
  -- SDL_Window* window = device->cur_swap->wi->sdl_window;
  let d ← load_device s device
  let sw ← load_swap s d.cur_swap
  let w ← load_wi s sw.wi
  let window := w.sdl_window
  -- if (SDL_GL_MakeCurrent(window, NULL) != 0) blog(...);
  let r := o.SDL_GL_MakeCurrent s.trace window NULL
  let s := emit (Event.SDL_GL_MakeCurrent window NULL r) s
  if r ≠ 0 then
    some (emit (Event.blog LogLevel.LOG_ERROR "Failed to reset current context." []) s)
  else some s

/-- Source: `device_load_swapchain`. -/
def device_load_swapchain (o : Oracle) (device : Ptr) (swap : SwapPtr) (s : State) :
    Option State := do
  -- if (!swap) swap = &device->plat->swap;
  let swap ← (if swap = SwapPtr.null then
      (load_device s device).map (fun d => SwapPtr.plat_swap d.plat)
    else some swap)
  -- if (device->cur_swap == swap) return;
  let d ← load_device s device
  if d.cur_swap = swap then some s else
  -- SDL_Window* window = swap->wi->sdl_window;
  let sw ← load_swap s swap
  let w ← load_wi s sw.wi
  let window := w.sdl_window
  -- SDL_GLContext ctx = device->plat->context;
  let d ← load_device s device
  let p ← load_plat s d.plat
  let ctx := p.context
  -- device->cur_swap = swap;
  let s ← modify_device device (fun d => { d with cur_swap := swap }) s
  -- if (SDL_GL_MakeCurrent(window, ctx) != 0) blog(...);
  let r := o.SDL_GL_MakeCurrent s.trace window ctx
  let s := emit (Event.SDL_GL_MakeCurrent window ctx r) s
  if r ≠ 0 then
    some (emit (Event.blog LogLevel.LOG_ERROR "Failed to make context current." []) s)
  else some s

/-! ## Concrete environments used to evaluate the code -/

/-- A library environment in which every call succeeds: the platform is
allocated at 100, the window info at 200, the SDL window is 300, the X11
display and window are 400 and 500, the GL context is 600. -/
def okOracle : Oracle where
  bzalloc := fun _ ty =>
    match ty with
    | AllocType.gl_platform => 100
    | AllocType.gl_windowinfo => 200
  SDL_CreateWindow := fun _ _ _ _ _ _ _ => 300
  SDL_GetWindowWMInfo := fun _ w =>
    if w = NULL then (false, ⟨SDL_SYSWM_TYPE.SDL_SYSWM_UNKNOWN, 0, 0⟩)
    else (true, ⟨SDL_SYSWM_TYPE.SDL_SYSWM_X11, 400, 500⟩)
  XReparentWindow := fun _ _ _ _ _ _ => 1
  SDL_GL_CreateContext := fun _ w => if w = NULL then NULL else 600
  SDL_GL_MakeCurrent := fun _ _ _ => 0
  gladLoadGL := fun _ => 1
  glGetString := fun _ => 700

/-- Init data for a 640x480 window embedded into native window 77. -/
def info0 : gs_init_data := ⟨77, 640, 480, 2, 1, 1, 0⟩

/-- A state with one device at address 1, no platform and no current swap
chain, and an empty trace. -/
def state0 : State :=
  ⟨⟨[], [], [], [(1, ⟨NULL, SwapPtr.null⟩)]⟩, []⟩

/-- The environment `okOracle`, except that `SDL_CreateWindow` fails. -/
def noWindowOracle : Oracle :=
  { okOracle with SDL_CreateWindow := fun _ _ _ _ _ _ _ => NULL }

/-- The environment `okOracle`, except that `SDL_GetWindowWMInfo` fails. -/
def noWMInfoOracle : Oracle :=
  { okOracle with SDL_GetWindowWMInfo := fun _ _ =>
      (false, ⟨SDL_SYSWM_TYPE.SDL_SYSWM_UNKNOWN, 0, 0⟩) }

/-- The environment `okOracle`, except that `gladLoadGL` fails. -/
def noGladOracle : Oracle :=
  { okOracle with gladLoadGL := fun _ => 0 }

/-- The environment `okOracle`, except that `SDL_GL_MakeCurrent` fails. -/
def noMakeCurrentOracle : Oracle :=
  { okOracle with SDL_GL_MakeCurrent := fun _ _ _ => -1 }

/-- A state with a device at address 1 whose platform (at 100, context 600)
owns the current swap chain (window info 200, SDL window 300), and a second
swap chain at 900 (window info 210, SDL window 310). -/
def state1 : State :=
  ⟨⟨[(200, ⟨300⟩), (210, ⟨310⟩)],
    [(100, ⟨600, ⟨1, info0, 200⟩⟩)],
    [(900, ⟨1, info0, 210⟩)],
    [(1, ⟨100, SwapPtr.plat_swap 100⟩)]⟩, []⟩

/-- The calls of a run of `gl_platform_create` in `okOracle` on `info0`, up to
and including `SDL_ShowWindow`. -/
def ok_calls : List Event :=
  [Event.bzalloc AllocType.gl_platform 100,
   Event.blog LogLevel.LOG_INFO
     "X and Y: %i %i\nBackbuffers: %i\nColor Format: %i\nZStencil Format: %i\nAdapter: %i\n"
     [640, 480, 2, 1, 1, 0],
   Event.bzalloc AllocType.gl_windowinfo 200,
   Event.SDL_CreateWindow "OBS Studio" 0 0 640 480
     [SDL_WindowFlags.SDL_WINDOW_OPENGL, SDL_WindowFlags.SDL_WINDOW_BORDERLESS,
      SDL_WindowFlags.SDL_WINDOW_HIDDEN] 300,
   Event.SDL_GetWindowWMInfo 300 true ⟨SDL_SYSWM_TYPE.SDL_SYSWM_X11, 400, 500⟩,
   Event.XReparentWindow 400 500 77 0 0 1,
   Event.SDL_GL_SetAttribute SDL_GLattr.SDL_GL_CONTEXT_FLAGS
     SDL_GLvalue.SDL_GL_CONTEXT_DEBUG_FLAG,
   Event.SDL_GL_SetAttribute SDL_GLattr.SDL_GL_CONTEXT_PROFILE_MASK
     SDL_GLvalue.SDL_GL_CONTEXT_PROFILE_CORE,
   Event.SDL_GL_SetAttribute SDL_GLattr.SDL_GL_CONTEXT_MAJOR_VERSION (SDL_GLvalue.num 3),
   Event.SDL_GL_SetAttribute SDL_GLattr.SDL_GL_CONTEXT_MINOR_VERSION (SDL_GLvalue.num 2),
   Event.SDL_GL_CreateContext 300 600,
   Event.SDL_GL_MakeCurrent 300 600 0,
   Event.SDL_ShowWindow 300]

/-- The state `gl_platform_create okOracle 1 info0 state0` ends in. -/
def created_state : State :=
  ⟨⟨[(200, ⟨300⟩)], [(100, ⟨600, ⟨1, info0, 200⟩⟩)], [],
    [(1, ⟨100, SwapPtr.plat_swap 100⟩)]⟩,
   ok_calls ++
   [Event.gladLoadGL 1,
    Event.glGetString 700,
    Event.blog LogLevel.LOG_INFO "OpenGL version: %s\n" [700],
    Event.blog LogLevel.LOG_INFO "Created new platform data" []]⟩

/-- The state `gl_platform_create noGladOracle 1 info0 state0` ends in. -/
def glad_failed_state : State :=
  ⟨⟨[], [], [], [(1, ⟨100, SwapPtr.null⟩)]⟩,
   ok_calls ++
   [Event.gladLoadGL 0,
    Event.blog LogLevel.LOG_ERROR "Failed to load OpenGL entry functions." [],
    Event.SDL_GL_MakeCurrent 600 NULL 0,
    Event.SDL_GL_DeleteContext 600,
    Event.SDL_DestroyWindow 300,
    Event.bfree 200,
    Event.bfree 100]⟩

/-- The state `device_load_swapchain noMakeCurrentOracle 1 (SwapPtr.chain 900) state1`
ends in. -/
def switched_state : State :=
  ⟨⟨[(200, ⟨300⟩), (210, ⟨310⟩)],
    [(100, ⟨600, ⟨1, info0, 200⟩⟩)],
    [(900, ⟨1, info0, 210⟩)],
    [(1, ⟨100, SwapPtr.chain 900⟩)]⟩,
   [Event.SDL_GL_MakeCurrent 310 600 (-1),
    Event.blog LogLevel.LOG_ERROR "Failed to make context current." []]⟩

/-! ## Vocabulary for statements about traces -/

/-- The flags `gl_windowinfo_create` passes to `SDL_CreateWindow`. -/
def windowFlags : List SDL_WindowFlags :=
  [SDL_WindowFlags.SDL_WINDOW_OPENGL, SDL_WindowFlags.SDL_WINDOW_BORDERLESS,
    SDL_WindowFlags.SDL_WINDOW_HIDDEN]

/-- The calls every run of `gl_windowinfo_create` makes, up to and including
`SDL_GetWindowWMInfo`: `p` is the allocated window info, `win` the result of
`SDL_CreateWindow`, `ok` and `wm` what `SDL_GetWindowWMInfo` reported. -/
def windowinfo_calls (p : Ptr) (info : gs_init_data) (win : Ptr) (ok : Bool)
    (wm : SDL_SysWMinfo) : List Event :=
  [Event.bzalloc AllocType.gl_windowinfo p,
   Event.SDL_CreateWindow "OBS Studio" 0 0 info.cx info.cy windowFlags win] ++
  (if win = NULL then [Event.blog LogLevel.LOG_ERROR "Failed to create SDL Window!" []]
   else []) ++
  [Event.SDL_GetWindowWMInfo win ok wm]

/-- The four `SDL_GL_SetAttribute` calls of `gl_platform_create`. -/
def set_attribute_calls : List Event :=
  [Event.SDL_GL_SetAttribute SDL_GLattr.SDL_GL_CONTEXT_FLAGS
      SDL_GLvalue.SDL_GL_CONTEXT_DEBUG_FLAG,
   Event.SDL_GL_SetAttribute SDL_GLattr.SDL_GL_CONTEXT_PROFILE_MASK
      SDL_GLvalue.SDL_GL_CONTEXT_PROFILE_CORE,
   Event.SDL_GL_SetAttribute SDL_GLattr.SDL_GL_CONTEXT_MAJOR_VERSION (SDL_GLvalue.num 3),
   Event.SDL_GL_SetAttribute SDL_GLattr.SDL_GL_CONTEXT_MINOR_VERSION (SDL_GLvalue.num 2)]

/-- The event is a call of `SDL_GL_CreateContext`. -/
def is_SDL_GL_CreateContext : Event → Bool
  | Event.SDL_GL_CreateContext _ _ => true
  | _ => false

/-- The event is a call of `SDL_GL_MakeCurrent`. -/
def is_SDL_GL_MakeCurrent : Event → Bool
  | Event.SDL_GL_MakeCurrent _ _ _ => true
  | _ => false

/-- The event is a call of `SDL_ShowWindow`. -/
def is_SDL_ShowWindow : Event → Bool
  | Event.SDL_ShowWindow _ => true
  | _ => false

/-- The event is a call of `gladLoadGL`. -/
def is_gladLoadGL : Event → Bool
  | Event.gladLoadGL _ => true
  | _ => false

/-- The event is a call of `SDL_DestroyWindow` on `w`. -/
def is_SDL_DestroyWindow (w : Ptr) : Event → Bool
  | Event.SDL_DestroyWindow v => v = w
  | _ => false

/-- The event is one of the calls `gl_windowinfo_create` makes. -/
def is_windowinfo_call : Event → Bool
  | Event.bzalloc AllocType.gl_windowinfo _ => true
  | Event.SDL_CreateWindow _ _ _ _ _ _ _ => true
  | Event.blog _ _ _ => true
  | Event.SDL_GetWindowWMInfo _ _ _ => true
  | Event.XReparentWindow _ _ _ _ _ _ => true
  | Event.bfree _ => true
  | _ => false

/-- Lines 124 to 130 of `gl_platform_create`: the state in which line 132 calls
`gl_windowinfo_create` (meaningful when the platform allocation succeeded). -/
def gl_platform_create_before_windowinfo (o : Oracle) (device : Ptr) (info : gs_init_data)
    (s : State) : Option State :=
  modify_device device (fun d => { d with plat := (bzalloc_platform o s).1 })
    (print_info_stuff info (bzalloc_platform o s).2)

/-- What `gl_windowinfo_create` returns when line 132 of `gl_platform_create`
calls it (`none` when the call is undefined). -/
def windowinfo_step_result (o : Oracle) (device : Ptr) (info : gs_init_data)
    (s : State) : Option Ptr :=
  (gl_platform_create_before_windowinfo o device info s).bind fun s1 =>
    (gl_windowinfo_create o info s1).map fun r => r.1

/-- The step `gl_windowinfo_create` of `gl_platform_create` is reached and
returns `NULL`. -/
def windowinfo_step_fails (o : Oracle) (device : Ptr) (info : gs_init_data)
    (s : State) : Bool :=
  decide ((bzalloc_platform o s).1 ≠ NULL) &&
    decide (windowinfo_step_result o device info s = some NULL)

/-- The five ways a run of `gl_platform_create` ends once the platform `p` is
allocated and `gl_windowinfo_create` has returned `wi` (whose SDL window is
`win`) with trace `tr2`: failure of the window info, of the context, of
`SDL_GL_MakeCurrent`, of `gladLoadGL`, or success.  `r` is the result, `s'` the
final state, `d` the device before the call. -/
def create_outcome (p device : Ptr) (info : gs_init_data) (d : gs_device) (wi : Ptr)
    (tr2 : List Event) (win : Ptr) (r : Ptr) (s' : State) : Prop :=
      ((wi = NULL ∧ r = NULL ∧
        s'.trace = tr2 ++ [Event.bfree p] ∧
        load_device s' device = some ⟨p, d.cur_swap⟩) ∨
       (wi ≠ NULL ∧ r = NULL ∧
        s'.trace = tr2 ++ set_attribute_calls ++
          [Event.SDL_GL_CreateContext win NULL,
           Event.blog LogLevel.LOG_ERROR "Failed to create context!" [],
           Event.SDL_DestroyWindow win, Event.bfree wi,
           Event.bfree p] ∧
        load_device s' device = some ⟨p, d.cur_swap⟩) ∨
       (wi ≠ NULL ∧ r = NULL ∧ ∃ ctx mc, ctx ≠ NULL ∧ mc ≠ 0 ∧
        s'.trace = tr2 ++ set_attribute_calls ++
          [Event.SDL_GL_CreateContext win ctx,
           Event.SDL_GL_MakeCurrent win ctx mc,
           Event.blog LogLevel.LOG_ERROR "Failed to make context current." [],
           Event.SDL_GL_DeleteContext ctx,
           Event.SDL_DestroyWindow win, Event.bfree wi,
           Event.bfree p] ∧
        load_device s' device = some ⟨p, d.cur_swap⟩) ∨
       (wi ≠ NULL ∧ r = NULL ∧ ∃ ctx mc, ctx ≠ NULL ∧
        s'.trace = tr2 ++ set_attribute_calls ++
          [Event.SDL_GL_CreateContext win ctx,
           Event.SDL_GL_MakeCurrent win ctx 0,
           Event.SDL_ShowWindow win,
           Event.gladLoadGL 0,
           Event.blog LogLevel.LOG_ERROR "Failed to load OpenGL entry functions." [],
           Event.SDL_GL_MakeCurrent ctx NULL mc,
           Event.SDL_GL_DeleteContext ctx,
           Event.SDL_DestroyWindow win, Event.bfree wi,
           Event.bfree p] ∧
        load_device s' device = some ⟨p, d.cur_swap⟩) ∨
       (wi ≠ NULL ∧ r = p ∧ ∃ ctx g v, ctx ≠ NULL ∧ g ≠ 0 ∧
        s'.trace = tr2 ++ set_attribute_calls ++
          [Event.SDL_GL_CreateContext win ctx,
           Event.SDL_GL_MakeCurrent win ctx 0,
           Event.SDL_ShowWindow win,
           Event.gladLoadGL g,
           Event.glGetString v,
           Event.blog LogLevel.LOG_INFO "OpenGL version: %s\n" [v],
           Event.blog LogLevel.LOG_INFO "Created new platform data" []] ∧
        load_device s' device = some ⟨r, SwapPtr.plat_swap r⟩ ∧
        load_plat s' r = some ⟨ctx, ⟨device, info, wi⟩⟩ ∧
        load_wi s' wi = some ⟨win⟩))

/-! ## Basic facts about the memory operations -/

theorem load_store_same {α : Type} (m : List (Ptr × α)) (p : Ptr) (v : α) (hp : p ≠ NULL) :
    load (store m p v) p = some v := by
  simp [load, store, lookupObj, hp]

theorem load_some_ne_null {α : Type} (m : List (Ptr × α)) (p : Ptr) (v : α)
    (h : load m p = some v) : p ≠ NULL := by
  intro hp
  simp [load, hp] at h

/-! ## Every run of gl_windowinfo_create -/

theorem gl_windowinfo_create_cases (o : Oracle) (info : gs_init_data) (s : State)
    (hp : o.bzalloc s.trace AllocType.gl_windowinfo ≠ NULL) :
    ∃ win ok wm wi s', gl_windowinfo_create o info s = some (wi, s') ∧
      s'.heap.platforms = s.heap.platforms ∧ s'.heap.devices = s.heap.devices ∧
      s'.heap.swap_chains = s.heap.swap_chains ∧
      ((ok = false ∧ wi = NULL ∧
          s'.trace = s.trace ++ windowinfo_calls (o.bzalloc s.trace AllocType.gl_windowinfo) info win ok wm ++
            [Event.blog LogLevel.LOG_ERROR "Failed to fetch windowing system information!" [],
             Event.bfree (o.bzalloc s.trace AllocType.gl_windowinfo)]) ∨
       (ok = true ∧ wm.subsystem = SDL_SYSWM_TYPE.SDL_SYSWM_X11 ∧ wi = NULL ∧
          s'.trace = s.trace ++ windowinfo_calls (o.bzalloc s.trace AllocType.gl_windowinfo) info win ok wm ++
            [Event.XReparentWindow wm.x11_display wm.x11_window info.window_id 0 0 0,
             Event.blog LogLevel.LOG_ERROR "Failed to reparent SDL window!" [],
             Event.bfree (o.bzalloc s.trace AllocType.gl_windowinfo)]) ∨
       (ok = true ∧ wm.subsystem = SDL_SYSWM_TYPE.SDL_SYSWM_X11 ∧
          wi = o.bzalloc s.trace AllocType.gl_windowinfo ∧ load_wi s' wi = some ⟨win⟩ ∧
          ∃ r, r ≠ 0 ∧
          s'.trace = s.trace ++ windowinfo_calls (o.bzalloc s.trace AllocType.gl_windowinfo) info win ok wm ++
            [Event.XReparentWindow wm.x11_display wm.x11_window info.window_id 0 0 r]) ∨
       (ok = true ∧ wm.subsystem ≠ SDL_SYSWM_TYPE.SDL_SYSWM_X11 ∧
          wi = o.bzalloc s.trace AllocType.gl_windowinfo ∧ load_wi s' wi = some ⟨win⟩ ∧
          s'.trace = s.trace ++ windowinfo_calls (o.bzalloc s.trace AllocType.gl_windowinfo) info win ok wm)) := by
  unfold gl_windowinfo_create
  simp only [bzalloc_windowinfo, emit]
  generalize o.bzalloc s.trace AllocType.gl_windowinfo = p at hp ⊢
  simp only [hp, if_false]
  generalize o.SDL_CreateWindow _ _ _ _ _ _ _ = win
  simp only [modify_wi, load_wi, load_store_same _ _ _ hp, Option.map_some', Option.bind_eq_bind,
    Option.some_bind]
  refine ⟨win, ?_⟩
  by_cases hw : win = NULL
  all_goals
    simp only [hw, if_true, if_false, load_store_same _ _ _ hp, Option.some_bind]
    generalize o.SDL_GetWindowWMInfo _ _ = q
    obtain ⟨ok, sub, disp, xw⟩ := q
    refine ⟨ok, ⟨sub, disp, xw⟩, ?_⟩
    cases ok
    · refine ⟨_, _, rfl, rfl, rfl, rfl, ?_⟩
      simp [windowinfo_calls, windowFlags, hw, bfree_windowinfo, emit]
    · simp only [Bool.not_true, Bool.false_eq_true, if_false]
      cases sub with
      | SDL_SYSWM_X11 =>
        simp only []
        generalize o.XReparentWindow _ _ _ _ _ _ = r
        by_cases hr : r = 0
        · simp only [hr, if_true]
          refine ⟨_, _, rfl, rfl, rfl, rfl, ?_⟩
          simp [windowinfo_calls, windowFlags, hw, bfree_windowinfo, emit, gl_windowinfo_create_fail0]
        · simp only [hr, if_false]
          refine ⟨_, _, rfl, rfl, rfl, rfl, ?_⟩
          simp [windowinfo_calls, windowFlags, hw, hr, hp, load_wi, load_store_same _ _ _ hp]
      | _ =>
        refine ⟨_, _, rfl, rfl, rfl, rfl, ?_⟩
        simp [windowinfo_calls, windowFlags, hw, hp, load_wi, load_store_same _ _ _ hp]
theorem gl_windowinfo_create_alloc_null (o : Oracle) (info : gs_init_data) (s : State)
    (hp : o.bzalloc s.trace AllocType.gl_windowinfo = NULL) :
    gl_windowinfo_create o info s = none := by
  unfold gl_windowinfo_create
  simp [bzalloc_windowinfo, hp, modify_wi, load_wi, load, emit]

theorem windowinfo_calls_are_windowinfo_calls (p : Ptr) (info : gs_init_data) (win : Ptr)
    (ok : Bool) (wm : SDL_SysWMinfo) :
    ∀ e ∈ windowinfo_calls p info win ok wm, is_windowinfo_call e = true := by
  intro e he
  unfold windowinfo_calls at he
  by_cases hw : win = NULL
  · simp only [hw, if_true, List.mem_append, List.mem_cons, List.mem_singleton,
      List.not_mem_nil, or_false] at he
    rcases he with ((he | he) | he) | he <;> subst he <;> rfl
  · simp only [hw, if_false, List.mem_append, List.mem_cons, List.mem_singleton,
      List.not_mem_nil, or_false] at he
    rcases he with (he | he) | he <;> subst he <;> rfl

theorem gl_windowinfo_create_frame (o : Oracle) (info : gs_init_data) (s s' : State)
    (wi : Ptr) (hrun : gl_windowinfo_create o info s = some (wi, s')) :
    s'.heap.platforms = s.heap.platforms ∧ s'.heap.devices = s.heap.devices ∧
    s'.heap.swap_chains = s.heap.swap_chains ∧
    (∃ new, s'.trace = s.trace ++ new ∧ ∀ e ∈ new, is_windowinfo_call e = true) ∧
    (wi ≠ NULL → ∃ win, load_wi s' wi = some ⟨win⟩) := by
  by_cases hp : o.bzalloc s.trace AllocType.gl_windowinfo = NULL
  · rw [gl_windowinfo_create_alloc_null o info s hp] at hrun
    cases hrun
  · obtain ⟨win, ok, wm, wi0, s0, h0, h1, h2, h3, hcase⟩ := gl_windowinfo_create_cases o info s hp
    rw [h0] at hrun
    cases hrun
    refine ⟨h1, h2, h3, ?_, ?_⟩
    · have hcalls := windowinfo_calls_are_windowinfo_calls
        (o.bzalloc s.trace AllocType.gl_windowinfo) info win ok wm
      rcases hcase with ⟨_, _, ht⟩ | ⟨_, _, _, ht⟩ | ⟨_, _, _, _, r, _, ht⟩ | ⟨_, _, _, _, ht⟩
      · refine ⟨_, by rw [ht, List.append_assoc], ?_⟩
        intro e he
        rcases List.mem_append.1 he with he | he
        · exact hcalls e he
        · simp only [List.mem_cons, List.mem_singleton, List.not_mem_nil, or_false] at he
          rcases he with he | he <;> subst he <;> rfl
      · refine ⟨_, by rw [ht, List.append_assoc], ?_⟩
        intro e he
        rcases List.mem_append.1 he with he | he
        · exact hcalls e he
        · simp only [List.mem_cons, List.mem_singleton, List.not_mem_nil, or_false] at he
          rcases he with he | he | he <;> subst he <;> rfl
      · refine ⟨_, by rw [ht, List.append_assoc], ?_⟩
        intro e he
        rcases List.mem_append.1 he with he | he
        · exact hcalls e he
        · simp only [List.mem_singleton] at he
          subst he
          rfl
      · exact ⟨_, ht, hcalls⟩
    · intro hne
      rcases hcase with ⟨_, hw, _⟩ | ⟨_, _, hw, _⟩ | ⟨_, _, _, hl, _⟩ | ⟨_, _, _, hl, _⟩
      · exact absurd hw hne
      · exact absurd hw hne
      · exact ⟨win, hl⟩
      · exact ⟨win, hl⟩

/-! ## Every run of gl_platform_create -/

theorem gl_platform_create_alloc_null (o : Oracle) (device : Ptr) (info : gs_init_data)
    (s : State) (hp : o.bzalloc s.trace AllocType.gl_platform = NULL) :
    gl_platform_create o device info s =
      some (NULL, emit (Event.bzalloc AllocType.gl_platform NULL) s) := by
  unfold gl_platform_create
  simp [bzalloc_platform, hp]

theorem before_windowinfo_eq (o : Oracle) (device : Ptr) (info : gs_init_data)
    (s : State) (d : gs_device)
    (hp : o.bzalloc s.trace AllocType.gl_platform ≠ NULL)
    (hdev : load_device s device = some d) :
    gl_platform_create_before_windowinfo o device info s = some
      { heap := { s.heap with
          platforms := store s.heap.platforms (o.bzalloc s.trace AllocType.gl_platform)
            gl_platform.zero,
          devices := store s.heap.devices device
            { d with plat := o.bzalloc s.trace AllocType.gl_platform } },
        trace := (print_info_stuff info
          (emit (Event.bzalloc AllocType.gl_platform
            (o.bzalloc s.trace AllocType.gl_platform)) s)).trace } := by
  simp only [load_device] at hdev
  simp [gl_platform_create_before_windowinfo, bzalloc_platform, hp, modify_device, load_device,
    print_info_stuff, emit, hdev]

theorem gl_platform_create_device_invalid (o : Oracle) (device : Ptr) (info : gs_init_data)
    (s : State) (hp : o.bzalloc s.trace AllocType.gl_platform ≠ NULL)
    (hdev : load_device s device = none) :
    gl_platform_create o device info s = none := by
  unfold gl_platform_create
  simp only [load_device] at hdev
  simp [bzalloc_platform, hp, modify_device, load_device, print_info_stuff, emit, hdev]

theorem gl_platform_create_windowinfo_none (o : Oracle) (device : Ptr) (info : gs_init_data)
    (s s1 : State) (hp : o.bzalloc s.trace AllocType.gl_platform ≠ NULL)
    (hs1 : gl_platform_create_before_windowinfo o device info s = some s1)
    (hwi : gl_windowinfo_create o info s1 = none) :
    gl_platform_create o device info s = none := by
  unfold gl_platform_create
  simp only [gl_platform_create_before_windowinfo, bzalloc_platform, hp, if_false] at hs1
  simp [bzalloc_platform, hp, hs1, hwi]

theorem gl_platform_create_cases (o : Oracle) (device : Ptr) (info : gs_init_data)
    (s : State) (d : gs_device) (s1 : State) (wi : Ptr) (s2 : State)
    (hp : o.bzalloc s.trace AllocType.gl_platform ≠ NULL)
    (hdev : load_device s device = some d)
    (hs1 : gl_platform_create_before_windowinfo o device info s = some s1)
    (hwi : gl_windowinfo_create o info s1 = some (wi, s2))
    (hplat2 : s2.heap.platforms =
      store s.heap.platforms (o.bzalloc s.trace AllocType.gl_platform) gl_platform.zero)
    (hdev2 : s2.heap.devices = store s.heap.devices device
      { d with plat := o.bzalloc s.trace AllocType.gl_platform })
    (win : Ptr) (hwin : wi ≠ NULL → load_wi s2 wi = some ⟨win⟩) :
    ∃ r s', gl_platform_create o device info s = some (r, s') ∧
      create_outcome (o.bzalloc s.trace AllocType.gl_platform) device info d wi s2.trace win r s' := by
  rw [before_windowinfo_eq o device info s d hp hdev] at hs1
  cases hs1
  unfold gl_platform_create create_outcome
  have hdn : device ≠ NULL := load_some_ne_null _ _ _ hdev
  simp only [load_device] at hdev
  simp only [bzalloc_platform, print_info_stuff, emit, hp, if_false, modify_device, load_device,
    hdev, Option.map_some', Option.bind_eq_bind, Option.some_bind]
  simp only [print_info_stuff, emit] at hwi
  simp only [hwi, Option.some_bind]
  generalize o.bzalloc s.trace AllocType.gl_platform = p at *
  obtain ⟨⟨wis2, plats2, swaps2, devs2⟩, tr2⟩ := s2
  simp only at hplat2 hdev2
  subst hplat2 hdev2
  simp only [modify_plat, load_plat, load_store_same _ _ _ hp, Option.map_some',
    Option.some_bind]
  by_cases hw : wi = NULL
  · simp [hw, gl_platform_create_fail0, bfree_platform, emit, load_device,
      load_store_same _ _ _ hdn, and_assoc]
  · have hwin2 := hwin hw
    simp only [load_wi] at hwin2
    simp only [hw, if_false, load_wi, hwin2, Option.some_bind, load_store_same _ _ _ hp]
    generalize o.SDL_GL_CreateContext _ _ = ctx
    by_cases hc : ctx = NULL
    · simp [hc, hw, gl_platform_create_fail1, gl_platform_create_fail0, gl_windowinfo_destroy,
        bfree_platform, bfree_windowinfo, emit, load_device, load_plat, load_wi, hwin2,
        load_store_same _ _ _ hdn, load_store_same _ _ _ hp, and_assoc, set_attribute_calls]
    · simp only [hc, if_false]
      generalize o.SDL_GL_MakeCurrent _ _ _ = mc
      by_cases hm : mc = 0
      · simp only [hm, ne_eq, not_true_eq_false, if_false, Option.some_bind,
          load_store_same _ _ _ hp, hwin2]
        generalize o.gladLoadGL _ = g
        by_cases hg : g = 0
        · simp [hg, hc, hw, gl_platform_create_fail3, gl_platform_create_fail2,
            gl_platform_create_fail1, gl_platform_create_fail0, gl_windowinfo_destroy,
            bfree_platform, bfree_windowinfo, emit, load_device, load_plat, load_wi, hwin2,
            load_store_same _ _ _ hdn, load_store_same _ _ _ hp, and_assoc, set_attribute_calls]
        · simp [hg, hc, hw, emit, load_device, load_plat, load_wi, hwin2,
            load_store_same _ _ _ hdn, load_store_same _ _ _ hp, and_assoc, set_attribute_calls]
          exact ⟨ctx, hc, g, hg, rfl, rfl, rfl⟩
      · simp [hm, hc, hw, gl_platform_create_fail2,
            gl_platform_create_fail1, gl_platform_create_fail0, gl_windowinfo_destroy,
            bfree_platform, bfree_windowinfo, emit, load_device, load_plat, load_wi, hwin2,
            load_store_same _ _ _ hdn, load_store_same _ _ _ hp, and_assoc, set_attribute_calls]
        exact ⟨ctx, hc, mc, hm, rfl, rfl, rfl⟩

theorem windowinfo_call_not_later (e : Event) (h : is_windowinfo_call e = true) :
    is_SDL_GL_CreateContext e = false ∧ is_SDL_GL_MakeCurrent e = false ∧
    is_SDL_ShowWindow e = false ∧ is_gladLoadGL e = false ∧
    e ≠ Event.bzalloc AllocType.gl_platform NULL := by
  cases e <;> simp_all [is_windowinfo_call, is_SDL_GL_CreateContext, is_SDL_GL_MakeCurrent,
    is_SDL_ShowWindow, is_gladLoadGL]
  rename_i ty ret
  cases ty <;> simp_all [is_windowinfo_call]

theorem gl_platform_create_windowinfo_facts (o : Oracle) (device : Ptr) (info : gs_init_data)
    (s : State) (d : gs_device) (s1 : State) (wi : Ptr) (s2 : State)
    (hp : o.bzalloc s.trace AllocType.gl_platform ≠ NULL)
    (hdev : load_device s device = some d)
    (hs1 : gl_platform_create_before_windowinfo o device info s = some s1)
    (hwi : gl_windowinfo_create o info s1 = some (wi, s2)) :
    s2.heap.platforms =
      store s.heap.platforms (o.bzalloc s.trace AllocType.gl_platform) gl_platform.zero ∧
    s2.heap.devices = store s.heap.devices device
      { d with plat := o.bzalloc s.trace AllocType.gl_platform } ∧
    (∃ mid, (∀ e ∈ mid, is_windowinfo_call e = true) ∧
      s2.trace = s.trace ++
        Event.bzalloc AllocType.gl_platform (o.bzalloc s.trace AllocType.gl_platform) :: mid) ∧
    (∃ win, wi ≠ NULL → load_wi s2 wi = some ⟨win⟩) := by
  rw [before_windowinfo_eq o device info s d hp hdev] at hs1
  cases hs1
  obtain ⟨h1, h2, _, ⟨new, hnew, hcalls⟩, hload⟩ := gl_windowinfo_create_frame o info _ s2 wi hwi
  refine ⟨h1, h2, ⟨(print_info_stuff info s).trace.drop s.trace.length ++ new, ?_, ?_⟩, ?_⟩
  · intro e he
    rcases List.mem_append.1 he with he | he
    · simp [print_info_stuff, emit] at he
      subst he; rfl
    · exact hcalls e he
  · rw [hnew]; simp [print_info_stuff, emit]
  · by_cases hw : wi = NULL
    · exact ⟨0, fun h => absurd hw h⟩
    · obtain ⟨win, hwin⟩ := hload hw
      exact ⟨win, fun _ => hwin⟩

theorem bzalloc_platform_fst (o : Oracle) (s : State) :
    (bzalloc_platform o s).1 = o.bzalloc s.trace AllocType.gl_platform := by
  unfold bzalloc_platform
  simp only []
  split <;> rfl

theorem gl_platform_create_inv (o : Oracle) (device : Ptr) (info : gs_init_data)
    (s : State) (r : Ptr) (s' : State)
    (hp : o.bzalloc s.trace AllocType.gl_platform ≠ NULL)
    (hrun : gl_platform_create o device info s = some (r, s')) :
    ∃ d s1 wi s2 mid win, load_device s device = some d ∧
      gl_platform_create_before_windowinfo o device info s = some s1 ∧
      gl_windowinfo_create o info s1 = some (wi, s2) ∧
      (∀ e ∈ mid, is_windowinfo_call e = true) ∧
      s2.trace = s.trace ++
        Event.bzalloc AllocType.gl_platform (o.bzalloc s.trace AllocType.gl_platform) :: mid ∧
      (wi ≠ NULL → load_wi s2 wi = some ⟨win⟩) ∧
      create_outcome (o.bzalloc s.trace AllocType.gl_platform) device info d wi s2.trace win
        r s' := by
  cases hdev : load_device s device with
  | none =>
    rw [gl_platform_create_device_invalid o device info s hp hdev] at hrun
    cases hrun
  | some d =>
    have hs1 := before_windowinfo_eq o device info s d hp hdev
    generalize ({ heap := _, trace := _ } : State) = s1 at hs1
    cases hwi : gl_windowinfo_create o info s1 with
    | none =>
      rw [gl_platform_create_windowinfo_none o device info s s1 hp hs1 hwi] at hrun
      cases hrun
    | some res =>
      obtain ⟨wi, s2⟩ := res
      obtain ⟨hplat2, hdev2, ⟨mid, hmid, htr2⟩, win, hwin⟩ :=
        gl_platform_create_windowinfo_facts o device info s d s1 wi s2 hp hdev hs1 hwi
      obtain ⟨r0, s0, hrun0, hcase⟩ := gl_platform_create_cases o device info s d s1 wi s2 hp
        hdev hs1 hwi hplat2 hdev2 win hwin
      rw [hrun0] at hrun
      cases hrun
      exact ⟨d, s1, wi, s2, mid, win, rfl, hs1, hwi, hmid, htr2, hwin, hcase⟩

/-! ## Claims about gl_platform_create -/

/-- C4: with a valid device and an allocator that never returns NULL for the
window info, `gl_platform_create` returns, and it returns NULL if and only if
one of its checked steps fails (the platform allocation returns NULL,
`gl_windowinfo_create` returns NULL, `SDL_GL_CreateContext` returns NULL, the
checked `SDL_GL_MakeCurrent` returns non-zero, or `gladLoadGL` returns 0).  A
non-NULL result is the pointer the platform allocation returned.  After a
failing step none of the later steps among `SDL_GL_CreateContext`,
`SDL_GL_MakeCurrent`, `SDL_ShowWindow` and `gladLoadGL` is called. -/
theorem gl_platform_create_null_iff (o : Oracle) (device : Ptr) (info : gs_init_data)
    (s : State) (d : gs_device)
    (hdev : load_device s device = some d)
    (halloc : ∀ tr, o.bzalloc tr AllocType.gl_windowinfo ≠ NULL) :
    ∃ r s' new, gl_platform_create o device info s = some (r, s') ∧
      s'.trace = s.trace ++ new ∧
      (r = NULL ↔
        (Event.bzalloc AllocType.gl_platform NULL ∈ new ∨
         windowinfo_step_fails o device info s = true ∨
         (∃ w, Event.SDL_GL_CreateContext w NULL ∈ new) ∨
         (∃ w c ret, c ≠ NULL ∧ ret ≠ 0 ∧ Event.SDL_GL_MakeCurrent w c ret ∈ new) ∨
         Event.gladLoadGL 0 ∈ new)) ∧
      (r ≠ NULL → Event.bzalloc AllocType.gl_platform r ∈ new) ∧
      (Event.bzalloc AllocType.gl_platform NULL ∈ new →
        new = [Event.bzalloc AllocType.gl_platform NULL]) ∧
      (windowinfo_step_fails o device info s = true →
        ∀ e ∈ new, is_SDL_GL_CreateContext e = false ∧ is_SDL_GL_MakeCurrent e = false ∧
          is_SDL_ShowWindow e = false ∧ is_gladLoadGL e = false) ∧
      ((∃ w, Event.SDL_GL_CreateContext w NULL ∈ new) →
        ∀ e ∈ new, is_SDL_GL_MakeCurrent e = false ∧
          is_SDL_ShowWindow e = false ∧ is_gladLoadGL e = false) ∧
      ((∃ w c ret, c ≠ NULL ∧ ret ≠ 0 ∧ Event.SDL_GL_MakeCurrent w c ret ∈ new) →
        ∀ e ∈ new, is_SDL_ShowWindow e = false ∧ is_gladLoadGL e = false) := by
  by_cases hp : o.bzalloc s.trace AllocType.gl_platform = NULL
  · refine ⟨NULL, _, [Event.bzalloc AllocType.gl_platform NULL],
      gl_platform_create_alloc_null o device info s hp, rfl, ?_⟩
    simp [is_SDL_GL_CreateContext, is_SDL_GL_MakeCurrent, is_SDL_ShowWindow, is_gladLoadGL,
      windowinfo_step_fails, bzalloc_platform_fst, hp]
  · have hs1 := before_windowinfo_eq o device info s d hp hdev
    generalize hs1e : ({ heap := _, trace := _ } : State) = s1 at hs1
    obtain ⟨win0, ok, wm, wi, s2, hwi, -⟩ := gl_windowinfo_create_cases o info s1 (halloc _)
    obtain ⟨hplat2, hdev2, ⟨mid, hmid, htr2⟩, win, hwin⟩ :=
      gl_platform_create_windowinfo_facts o device info s d s1 wi s2 hp hdev hs1 hwi
    have hstep : windowinfo_step_fails o device info s = decide (wi = NULL) := by
      simp [windowinfo_step_fails, windowinfo_step_result, hs1, hwi, bzalloc_platform_fst, hp]
    have hm1 : ∀ e ∈ mid, is_SDL_GL_CreateContext e = false ∧ is_SDL_GL_MakeCurrent e = false ∧
        is_SDL_ShowWindow e = false ∧ is_gladLoadGL e = false ∧
        e ≠ Event.bzalloc AllocType.gl_platform NULL :=
      fun e he => windowinfo_call_not_later e (hmid e he)
    have hcc : ∀ w r, Event.SDL_GL_CreateContext w r ∉ mid := fun w r h => by
      have := (hm1 _ h).1; simp [is_SDL_GL_CreateContext] at this
    have hmc : ∀ w c r, Event.SDL_GL_MakeCurrent w c r ∉ mid := fun w c r h => by
      have := (hm1 _ h).2.1; simp [is_SDL_GL_MakeCurrent] at this
    have hgl : ∀ g, Event.gladLoadGL g ∉ mid := fun g h => by
      have := (hm1 _ h).2.2.2.1; simp [is_gladLoadGL] at this
    have hbz : Event.bzalloc AllocType.gl_platform NULL ∉ mid := fun h =>
      (hm1 _ h).2.2.2.2 rfl
    obtain ⟨r, s', hrun, hcase⟩ := gl_platform_create_cases o device info s d s1 wi s2 hp hdev
      hs1 hwi hplat2 hdev2 win hwin
    unfold create_outcome at hcase
    rcases hcase with ⟨hw, hr, ht, -⟩ | ⟨hw, hr, ht, -⟩ | ⟨hw, hr, ctx, mc, hc, hm, ht, -⟩ |
      ⟨hw, hr, ctx, mc, hc, ht, -⟩ | ⟨hw, hr, ctx, g, v, hc, hg, ht, -⟩
    all_goals
      rw [htr2] at ht
      simp only [List.append_assoc, List.cons_append] at ht
      refine ⟨r, s', _, hrun, ht, ?_⟩
      have hm_cc : ∀ e ∈ mid, is_SDL_GL_CreateContext e = false := fun e he => (hm1 e he).1
      have hm_mc : ∀ e ∈ mid, is_SDL_GL_MakeCurrent e = false := fun e he => (hm1 e he).2.1
      have hm_sw : ∀ e ∈ mid, is_SDL_ShowWindow e = false := fun e he => (hm1 e he).2.2.1
      have hm_gl : ∀ e ∈ mid, is_gladLoadGL e = false := fun e he => (hm1 e he).2.2.2.1
      simp +contextual only [List.mem_append, List.mem_cons, List.mem_singleton, or_imp,
        forall_and, forall_eq, hm_cc, hm_mc, hm_sw, hm_gl, set_attribute_calls,
        List.not_mem_nil, false_implies, implies_true, and_true, true_and]
      clear hrun ht hwi hs1 hs1e hplat2 hdev2 htr2 hwin hdev halloc hm1 hmid
      have hp2 := Ne.symm hp
      try have hc2 := Ne.symm hc
      try have hg2 := Ne.symm hg
      simp [*, is_SDL_GL_CreateContext, is_SDL_GL_MakeCurrent, is_SDL_ShowWindow,
        is_gladLoadGL] <;>
      first
        | exact ⟨win, ctx, hc, mc, hm, rfl, rfl, rfl⟩
        | (intro x x1 h1 x2 h2; exact ⟨fun _ _ h => h2 h, fun _ h _ => absurd h h1⟩)
        | (intro x x1 _ x2 h2 _ _ h; exact h2 h)

theorem gl_platform_create_null_iff_witness :
    load_device state0 1 = some ⟨NULL, SwapPtr.null⟩ ∧
    (∀ tr, okOracle.bzalloc tr AllocType.gl_windowinfo ≠ NULL) ∧
    ∃ r s' new, gl_platform_create okOracle 1 info0 state0 = some (r, s') ∧
      s'.trace = state0.trace ++ new ∧
      (r = NULL ↔
        (Event.bzalloc AllocType.gl_platform NULL ∈ new ∨
         windowinfo_step_fails okOracle 1 info0 state0 = true ∨
         (∃ w, Event.SDL_GL_CreateContext w NULL ∈ new) ∨
         (∃ w c ret, c ≠ NULL ∧ ret ≠ 0 ∧ Event.SDL_GL_MakeCurrent w c ret ∈ new) ∨
         Event.gladLoadGL 0 ∈ new)) ∧
      (r ≠ NULL → Event.bzalloc AllocType.gl_platform r ∈ new) ∧
      (Event.bzalloc AllocType.gl_platform NULL ∈ new →
        new = [Event.bzalloc AllocType.gl_platform NULL]) ∧
      (windowinfo_step_fails okOracle 1 info0 state0 = true →
        ∀ e ∈ new, is_SDL_GL_CreateContext e = false ∧ is_SDL_GL_MakeCurrent e = false ∧
          is_SDL_ShowWindow e = false ∧ is_gladLoadGL e = false) ∧
      ((∃ w, Event.SDL_GL_CreateContext w NULL ∈ new) →
        ∀ e ∈ new, is_SDL_GL_MakeCurrent e = false ∧
          is_SDL_ShowWindow e = false ∧ is_gladLoadGL e = false) ∧
      ((∃ w c ret, c ≠ NULL ∧ ret ≠ 0 ∧ Event.SDL_GL_MakeCurrent w c ret ∈ new) →
        ∀ e ∈ new, is_SDL_ShowWindow e = false ∧ is_gladLoadGL e = false) :=
  ⟨by decide, fun _ => by simp [okOracle, NULL],
    gl_platform_create_null_iff okOracle 1 info0 state0 ⟨NULL, SwapPtr.null⟩ (by decide)
      (fun _ => by simp [okOracle, NULL])⟩

theorem filter_eq_nil_of_forall_false (l : List Event) (f : Event → Bool)
    (h : ∀ e ∈ l, f e = false) : l.filter f = [] := by
  induction l with
  | nil => rfl
  | cons a t ih =>
    have ha : f a = false := h a (List.mem_cons_self a t)
    have ht : ∀ e ∈ t, f e = false := fun e he => h e (List.mem_cons_of_mem a he)
    simp [List.filter, ha, ih ht]

/-- C6: when `gl_platform_create` returns a non-NULL `plat`, then in the final
state `device->plat` is `plat`, `device->cur_swap` is `gl_platform_getswap plat`,
`plat->swap.device` is the device, `plat->swap.info` is the init data,
`plat->swap.wi` is what `gl_windowinfo_create` returned, and `plat->context` is
the result of the one `SDL_GL_CreateContext` call, made on that window info's
SDL window. -/
theorem gl_platform_create_success_state (o : Oracle) (device : Ptr) (info : gs_init_data)
    (s : State) (plat : Ptr) (s' : State)
    (hrun : gl_platform_create o device info s = some (plat, s')) (hplat : plat ≠ NULL) :
    ∃ dv pl w new,
      load_device s' device = some dv ∧ dv.plat = plat ∧
      dv.cur_swap = gl_platform_getswap plat ∧
      load_plat s' plat = some pl ∧ pl.swap.device = device ∧ pl.swap.info = info ∧
      windowinfo_step_result o device info s = some pl.swap.wi ∧
      load_wi s' pl.swap.wi = some w ∧
      s'.trace = s.trace ++ new ∧
      new.filter is_SDL_GL_CreateContext =
        [Event.SDL_GL_CreateContext w.sdl_window pl.context] := by
  by_cases hp : o.bzalloc s.trace AllocType.gl_platform = NULL
  · rw [gl_platform_create_alloc_null o device info s hp] at hrun
    cases hrun
    exact absurd rfl hplat
  · obtain ⟨d, s1, wi, s2, mid, win, hdev, hs1, hwi, hmid, htr2, hwin, hcase⟩ :=
      gl_platform_create_inv o device info s plat s' hp hrun
    unfold create_outcome at hcase
    rcases hcase with ⟨_, hr, _⟩ | ⟨_, hr, _⟩ | ⟨_, hr, _⟩ | ⟨_, hr, _⟩ |
      ⟨hw, hr, ctx, g, v, hc, hg, ht, hd', hp', hw'⟩
    · exact absurd hr hplat
    · exact absurd hr hplat
    · exact absurd hr hplat
    · exact absurd hr hplat
    · rw [htr2] at ht
      simp only [List.append_assoc, List.cons_append] at ht
      refine ⟨_, _, _, _, hd', rfl, rfl, hp', rfl, rfl, ?_, hw', ht, ?_⟩
      · simp [windowinfo_step_result, hs1, hwi]
      · have hmf : mid.filter is_SDL_GL_CreateContext = [] :=
          filter_eq_nil_of_forall_false mid _
            (fun e he => (windowinfo_call_not_later e (hmid e he)).1)
        simp [List.filter_cons, List.filter_append, hmf, set_attribute_calls,
          is_SDL_GL_CreateContext]

theorem gl_platform_create_success_state_witness :
    gl_platform_create okOracle 1 info0 state0 = some (100, created_state) ∧
    (100 : Ptr) ≠ NULL ∧
    ∃ dv pl w new,
      load_device created_state 1 = some dv ∧ dv.plat = 100 ∧
      dv.cur_swap = gl_platform_getswap 100 ∧
      load_plat created_state 100 = some pl ∧ pl.swap.device = 1 ∧ pl.swap.info = info0 ∧
      windowinfo_step_result okOracle 1 info0 state0 = some pl.swap.wi ∧
      load_wi created_state pl.swap.wi = some w ∧
      created_state.trace = state0.trace ++ new ∧
      new.filter is_SDL_GL_CreateContext =
        [Event.SDL_GL_CreateContext w.sdl_window pl.context] :=
  ⟨by decide, by decide,
    gl_platform_create_success_state okOracle 1 info0 state0 100 created_state (by decide)
      (by decide)⟩

/-- C9: when `gl_platform_create` returns NULL after the platform allocation
succeeded, `device->cur_swap` is what it was before the call, `device->plat`
is the pointer the allocation returned, and the last call of the run is
`bfree` of that pointer. -/
theorem gl_platform_create_failure_leaves_dangling_plat (o : Oracle) (device : Ptr)
    (info : gs_init_data) (s : State) (d : gs_device) (s' : State)
    (hdev : load_device s device = some d)
    (hp : (bzalloc_platform o s).1 ≠ NULL)
    (hrun : gl_platform_create o device info s = some (NULL, s')) :
    load_device s' device = some ⟨(bzalloc_platform o s).1, d.cur_swap⟩ ∧
    ∃ pre, s'.trace = s.trace ++ pre ++ [Event.bfree (bzalloc_platform o s).1] := by
  rw [bzalloc_platform_fst] at hp ⊢
  obtain ⟨d0, s1, wi, s2, mid, win, hdev0, hs1, hwi, hmid, htr2, hwin, hcase⟩ :=
    gl_platform_create_inv o device info s NULL s' hp hrun
  rw [hdev] at hdev0
  cases hdev0
  unfold create_outcome at hcase
  rcases hcase with ⟨_, _, ht, hd⟩ | ⟨_, _, ht, hd⟩ | ⟨_, _, ctx, mc, _, _, ht, hd⟩ |
      ⟨_, _, ctx, mc, _, ht, hd⟩ | ⟨_, hr, _⟩
  · exact ⟨hd, _, by rw [ht, htr2]⟩
  · refine ⟨hd, ?_⟩
    rw [ht, htr2]
    exact ⟨Event.bzalloc AllocType.gl_platform (o.bzalloc s.trace AllocType.gl_platform) ::
      (mid ++ set_attribute_calls ++ [Event.SDL_GL_CreateContext win NULL,
      Event.blog LogLevel.LOG_ERROR "Failed to create context!" [],
      Event.SDL_DestroyWindow win, Event.bfree wi]), by simp⟩
  · refine ⟨hd, ?_⟩
    rw [ht, htr2]
    exact ⟨Event.bzalloc AllocType.gl_platform (o.bzalloc s.trace AllocType.gl_platform) ::
      (mid ++ set_attribute_calls ++ [Event.SDL_GL_CreateContext win ctx,
      Event.SDL_GL_MakeCurrent win ctx mc,
      Event.blog LogLevel.LOG_ERROR "Failed to make context current." [],
      Event.SDL_GL_DeleteContext ctx, Event.SDL_DestroyWindow win, Event.bfree wi]), by simp⟩
  · refine ⟨hd, ?_⟩
    rw [ht, htr2]
    exact ⟨Event.bzalloc AllocType.gl_platform (o.bzalloc s.trace AllocType.gl_platform) ::
      (mid ++ set_attribute_calls ++ [Event.SDL_GL_CreateContext win ctx,
      Event.SDL_GL_MakeCurrent win ctx 0, Event.SDL_ShowWindow win, Event.gladLoadGL 0,
      Event.blog LogLevel.LOG_ERROR "Failed to load OpenGL entry functions." [],
      Event.SDL_GL_MakeCurrent ctx NULL mc, Event.SDL_GL_DeleteContext ctx,
      Event.SDL_DestroyWindow win, Event.bfree wi]), by simp⟩
  · exact absurd hr.symm hp

theorem gl_platform_create_failure_leaves_dangling_plat_witness :
    load_device state0 1 = some ⟨NULL, SwapPtr.null⟩ ∧
    (bzalloc_platform noGladOracle state0).1 ≠ NULL ∧
    gl_platform_create noGladOracle 1 info0 state0 = some (NULL, glad_failed_state) ∧
    load_device glad_failed_state 1 =
      some ⟨(bzalloc_platform noGladOracle state0).1, SwapPtr.null⟩ ∧
    ∃ pre, glad_failed_state.trace =
      state0.trace ++ pre ++ [Event.bfree (bzalloc_platform noGladOracle state0).1] :=
  ⟨by decide, by decide, by decide,
    gl_platform_create_failure_leaves_dangling_plat noGladOracle 1 info0 state0
      ⟨NULL, SwapPtr.null⟩ glad_failed_state (by decide) (by decide) (by decide)⟩

/-! ## Every run of device_load_swapchain -/

theorem device_load_swapchain_run (o : Oracle) (device : Ptr) (swap : SwapPtr) (st : State)
    (d : gs_device) (hdev : load_device st device = some d) :
    device_load_swapchain o device swap st =
      if d.cur_swap = (if swap = SwapPtr.null then gl_platform_getswap d.plat else swap)
      then some st
      else
        (load_swap st (if swap = SwapPtr.null then gl_platform_getswap d.plat else swap)).bind
          fun sw => (load_wi st sw.wi).bind fun w => (load_plat st d.plat).bind fun p =>
            some
              { heap := { st.heap with devices := (store st.heap.devices device
                  ⟨d.plat, if swap = SwapPtr.null then gl_platform_getswap d.plat else swap⟩) },
                trace := st.trace ++
                  Event.SDL_GL_MakeCurrent w.sdl_window p.context
                    (o.SDL_GL_MakeCurrent st.trace w.sdl_window p.context) ::
                  (if o.SDL_GL_MakeCurrent st.trace w.sdl_window p.context ≠ 0
                   then [Event.blog LogLevel.LOG_ERROR "Failed to make context current." []]
                   else []) } := by
  unfold device_load_swapchain
  simp only [hdev, Option.map_some', Option.bind_eq_bind, Option.some_bind, gl_platform_getswap]
  by_cases hs : swap = SwapPtr.null
  · simp only [hs, if_true, Option.some_bind]
    by_cases hc : d.cur_swap = SwapPtr.plat_swap d.plat
    · simp [hc]
    · simp only [hc, if_false]
      cases hsw : load_swap st (SwapPtr.plat_swap d.plat) with
      | none => simp
      | some sw =>
        simp only [Option.some_bind]
        cases hw : load_wi st sw.wi with
        | none => simp
        | some w =>
          simp only [Option.some_bind]
          cases hpl : load_plat st d.plat with
          | none => simp
          | some p =>
            simp only [load_device] at hdev
            simp only [Option.some_bind, modify_device, load_device, hdev, Option.map_some', emit]
            split <;> simp_all
  · simp only [hs, if_false, Option.some_bind]
    by_cases hc : d.cur_swap = swap
    · simp [hc]
    · simp only [hc, if_false]
      cases hsw : load_swap st swap with
      | none => simp
      | some sw =>
        simp only [Option.some_bind]
        cases hw : load_wi st sw.wi with
        | none => simp
        | some w =>
          simp only [Option.some_bind]
          cases hpl : load_plat st d.plat with
          | none => simp
          | some p =>
            simp only [load_device] at hdev
            simp only [Option.some_bind, modify_device, load_device, hdev, Option.map_some', emit]
            split <;> simp_all

theorem device_load_swapchain_device_invalid (o : Oracle) (device : Ptr) (swap : SwapPtr)
    (st : State) (hdev : load_device st device = none) :
    device_load_swapchain o device swap st = none := by
  unfold device_load_swapchain
  by_cases hs : swap = SwapPtr.null <;> simp [hs, hdev]

/-- C8: let `t` be the `swap` argument of `device_load_swapchain`, or the
platform's own swap chain when the argument is NULL.  The call returns with
`device->cur_swap` equal to `t` and `device->plat` unchanged, whatever
`SDL_GL_MakeCurrent` returned.  If `device->cur_swap` was already `t` no call
is made; otherwise exactly one `SDL_GL_MakeCurrent` call is made, on the SDL
window of `t` and the context of `device->plat` (followed by a log line when it
fails). -/
theorem device_load_swapchain_spec (o : Oracle) (device : Ptr) (swap : SwapPtr) (st : State)
    (d : gs_device) (sw : gs_swap_chain) (w : gl_windowinfo) (p : gl_platform)
    (hdev : load_device st device = some d)
    (hvalid : d.cur_swap ≠ (if swap = SwapPtr.null then gl_platform_getswap d.plat else swap) →
      load_swap st (if swap = SwapPtr.null then gl_platform_getswap d.plat else swap) = some sw ∧
      load_wi st sw.wi = some w ∧ load_plat st d.plat = some p) :
    ∃ st', device_load_swapchain o device swap st = some st' ∧
      load_device st' device =
        some ⟨d.plat, if swap = SwapPtr.null then gl_platform_getswap d.plat else swap⟩ ∧
      st'.trace = st.trace ++
        (if d.cur_swap = (if swap = SwapPtr.null then gl_platform_getswap d.plat else swap)
         then []
         else Event.SDL_GL_MakeCurrent w.sdl_window p.context
                (o.SDL_GL_MakeCurrent st.trace w.sdl_window p.context) ::
              (if o.SDL_GL_MakeCurrent st.trace w.sdl_window p.context ≠ 0
               then [Event.blog LogLevel.LOG_ERROR "Failed to make context current." []]
               else [])) := by
  rw [device_load_swapchain_run o device swap st d hdev]
  have hdn : device ≠ NULL := load_some_ne_null _ _ _ hdev
  by_cases hc : d.cur_swap = (if swap = SwapPtr.null then gl_platform_getswap d.plat else swap)
  · refine ⟨st, by simp only [hc, if_true], ?_, by simp [hc]⟩
    rw [hdev, ← hc]
  · obtain ⟨hsw, hw, hp⟩ := hvalid hc
    simp only [hc, if_false, hsw, hw, hp, Option.some_bind]
    exact ⟨_, rfl, by simp [load_device, load_store_same _ _ _ hdn], rfl⟩

theorem device_load_swapchain_spec_witness :
    load_device state1 1 = some ⟨100, SwapPtr.plat_swap 100⟩ ∧
    load_swap state1 (SwapPtr.chain 900) = some ⟨1, info0, 210⟩ ∧
    load_wi state1 210 = some ⟨310⟩ ∧
    load_plat state1 100 = some ⟨600, ⟨1, info0, 200⟩⟩ ∧
    ∃ st', device_load_swapchain noMakeCurrentOracle 1 (SwapPtr.chain 900) state1 = some st' ∧
      load_device st' 1 = some ⟨100, SwapPtr.chain 900⟩ ∧
      st'.trace = state1.trace ++
        [Event.SDL_GL_MakeCurrent 310 600 (-1),
         Event.blog LogLevel.LOG_ERROR "Failed to make context current." []] :=
  ⟨by decide, by decide, by decide, by decide,
    device_load_swapchain_spec noMakeCurrentOracle 1 (SwapPtr.chain 900) state1
      ⟨100, SwapPtr.plat_swap 100⟩ ⟨1, info0, 210⟩ ⟨310⟩ ⟨600, ⟨1, info0, 200⟩⟩ (by decide)
      (fun _ => ⟨by decide, by decide, by decide⟩)⟩

/-- C10: `device_load_swapchain` is idempotent: run again in the state the
first call returned, it returns that very state, so the device is the same and
no further call is made, whatever `SDL_GL_MakeCurrent` reported the first
time. -/
theorem device_load_swapchain_idempotent (o : Oracle) (device : Ptr) (swap : SwapPtr)
    (st st1 : State) (hrun : device_load_swapchain o device swap st = some st1) :
    device_load_swapchain o device swap st1 = some st1 := by
  cases hdev : load_device st device with
  | none =>
    rw [device_load_swapchain_device_invalid o device swap st hdev] at hrun
    cases hrun
  | some d =>
    have hdn : device ≠ NULL := load_some_ne_null _ _ _ hdev
    rw [device_load_swapchain_run o device swap st d hdev] at hrun
    by_cases hc : d.cur_swap = (if swap = SwapPtr.null then gl_platform_getswap d.plat else swap)
    · simp only [hc, if_true, Option.some.injEq] at hrun
      subst hrun
      rw [device_load_swapchain_run o device swap st d hdev]
      simp only [hc, if_true]
    · simp only [hc, if_false, Option.bind_eq_some] at hrun
      obtain ⟨sw, _, w, _, p, _, hst1⟩ := hrun
      simp only [Option.some.injEq] at hst1
      subst hst1
      have hdev1 : load_device
          { heap := { st.heap with devices := (store st.heap.devices device
              ⟨d.plat, if swap = SwapPtr.null then gl_platform_getswap d.plat else swap⟩) },
            trace := st.trace ++
              Event.SDL_GL_MakeCurrent w.sdl_window p.context
                (o.SDL_GL_MakeCurrent st.trace w.sdl_window p.context) ::
              (if o.SDL_GL_MakeCurrent st.trace w.sdl_window p.context ≠ 0
               then [Event.blog LogLevel.LOG_ERROR "Failed to make context current." []]
               else []) } device =
          some ⟨d.plat, if swap = SwapPtr.null then gl_platform_getswap d.plat else swap⟩ := by
        simp [load_device, load_store_same _ _ _ hdn]
      rw [device_load_swapchain_run o device swap _ _ hdev1]
      simp

theorem device_load_swapchain_idempotent_witness :
    device_load_swapchain noMakeCurrentOracle 1 (SwapPtr.chain 900) state1 =
      some switched_state ∧
    device_load_swapchain noMakeCurrentOracle 1 (SwapPtr.chain 900) switched_state =
      some switched_state :=
  ⟨by decide,
    device_load_swapchain_idempotent noMakeCurrentOracle 1 (SwapPtr.chain 900) state1
      switched_state (by decide)⟩

/-- C1 fails on the code: when `SDL_CreateWindow` returns NULL,
`gl_windowinfo_create` logs the error and goes on to call
`SDL_GetWindowWMInfo` with the NULL window. -/
theorem gl_windowinfo_create_continues_after_window_failure :
    (gl_windowinfo_create noWindowOracle info0 state0).map (fun r => (r.1, r.2.trace)) =
      some (NULL,
        [Event.bzalloc AllocType.gl_windowinfo 200,
         Event.SDL_CreateWindow "OBS Studio" 0 0 640 480 windowFlags NULL,
         Event.blog LogLevel.LOG_ERROR "Failed to create SDL Window!" [],
         Event.SDL_GetWindowWMInfo NULL false ⟨SDL_SYSWM_TYPE.SDL_SYSWM_UNKNOWN, 0, 0⟩,
         Event.blog LogLevel.LOG_ERROR "Failed to fetch windowing system information!" [],
         Event.bfree 200]) := by
  decide

/-- C2 fails on the code: when `SDL_GetWindowWMInfo` fails after
`SDL_CreateWindow` returned window 300, `gl_platform_create` returns NULL and
window 300 was never passed to `SDL_DestroyWindow`. -/
theorem gl_platform_create_leaks_window :
    (gl_platform_create noWMInfoOracle 1 info0 state0).map (fun r => (r.1, r.2.trace)) =
      some (NULL,
        [Event.bzalloc AllocType.gl_platform 100,
         Event.blog LogLevel.LOG_INFO
           "X and Y: %i %i\nBackbuffers: %i\nColor Format: %i\nZStencil Format: %i\nAdapter: %i\n"
           [640, 480, 2, 1, 1, 0],
         Event.bzalloc AllocType.gl_windowinfo 200,
         Event.SDL_CreateWindow "OBS Studio" 0 0 640 480 windowFlags 300,
         Event.SDL_GetWindowWMInfo 300 false ⟨SDL_SYSWM_TYPE.SDL_SYSWM_UNKNOWN, 0, 0⟩,
         Event.blog LogLevel.LOG_ERROR "Failed to fetch windowing system information!" [],
         Event.bfree 200,
         Event.bfree 100]) ∧
    (gl_platform_create noWMInfoOracle 1 info0 state0).map
        (fun r => r.2.trace.filter (is_SDL_DestroyWindow 300)) = some [] := by
  decide

/-- C3 fails on the code: `gl_platform_destroy`, run on the platform a
successful `gl_platform_create` returned, passes the SDL window to
`SDL_DestroyWindow` twice. -/
theorem gl_platform_destroy_destroys_window_twice :
    ((gl_platform_create okOracle 1 info0 state0).bind
        (fun r => (gl_platform_destroy okOracle r.1 r.2).map
          (fun s => (r.1, s.trace.drop r.2.trace.length)))) =
      some (100,
        [Event.SDL_GL_MakeCurrent 300 NULL 0,
         Event.SDL_DestroyWindow 300,
         Event.SDL_GL_DeleteContext 600,
         Event.SDL_DestroyWindow 300,
         Event.bfree 200,
         Event.bfree 100]) := by
  decide

/-- C7 fails on the code: when `gladLoadGL` fails, the cleanup of
`gl_platform_create` calls `SDL_GL_MakeCurrent` with the GL context (600), not
the SDL window (300), as its window argument. -/
theorem gl_platform_create_unbinds_with_context_as_window :
    (gl_platform_create noGladOracle 1 info0 state0).map
        (fun r => (r.1, r.2.trace.drop 10)) =
      some (NULL,
        [Event.SDL_GL_CreateContext 300 600,
         Event.SDL_GL_MakeCurrent 300 600 0,
         Event.SDL_ShowWindow 300,
         Event.gladLoadGL 0,
         Event.blog LogLevel.LOG_ERROR "Failed to load OpenGL entry functions." [],
         Event.SDL_GL_MakeCurrent 600 NULL 0,
         Event.SDL_GL_DeleteContext 600,
         Event.SDL_DestroyWindow 300,
         Event.bfree 200,
         Event.bfree 100]) := by
  decide

end GlSdl
